import Mathlib

/-!
Verification of the news-notifier deduplication core (`news_notifier.py`,
`rss_feeds.py`) against its natural-language specification.

The Python code is shallowly embedded: JSON values parsed by `json.load`
become the inductive `JVal`; the state file on disk becomes `StateFile`
(absent / unreadable / not-JSON / parsed JSON); Python exceptions that can
escape the embedded functions become `Except PyError`; Python `set[str]`
becomes `Finset String` (membership semantics) together with explicit
iteration-order lists where the code calls `list(...)` on a set.
-/

/-- Exceptions that the embedded code can raise to its caller.  Only
`TypeError` ever escapes the modelled fragment (iterating a non-iterable). -/
inductive PyError where
  | typeError
deriving DecidableEq, Repr

/-- A parsed JSON value, the result of a successful `json.load`.  Numbers are
modelled as integers (the state files in scope never hold floats); objects are
modelled as key-value lists with the keys already deduplicated, as in a parsed
Python dict. -/
inductive JVal where
  | null
  | bool (b : Bool)
  | num (n : Int)
  | str (s : String)
  | arr (xs : List JVal)
  | obj (fields : List (String × JVal))

/-- The apostrophe character used by Python `repr` for strings. -/
def pyQuote : String := String.singleton (Char.ofNat 39)

mutual

/-- Python `str(v)` for a parsed JSON value `v`.  Containers print their
elements with `repr`; string escaping inside `repr` is not modelled (no claim
depends on it). -/
def pyStr : JVal → String
  | .null => "None"
  | .bool true => "True"
  | .bool false => "False"
  | .num n => toString n
  | .str s => s
  | .arr xs => "[" ++ String.intercalate ", " (pyReprList xs) ++ "]"
  | .obj fs => "\x7b" ++ String.intercalate ", " (pyReprFields fs) ++ "\x7d"

/-- Python `repr(v)`: as `str(v)` except strings are quoted. -/
def pyRepr : JVal → String
  | .str s => pyQuote ++ s ++ pyQuote
  | .null => "None"
  | .bool true => "True"
  | .bool false => "False"
  | .num n => toString n
  | .arr xs => "[" ++ String.intercalate ", " (pyReprList xs) ++ "]"
  | .obj fs => "\x7b" ++ String.intercalate ", " (pyReprFields fs) ++ "\x7d"

def pyReprList : List JVal → List String
  | [] => []
  | v :: vs => pyRepr v :: pyReprList vs

def pyReprFields : List (String × JVal) → List String
  | [] => []
  | (k, v) :: fs => (pyQuote ++ k ++ pyQuote ++ ": " ++ pyRepr v) :: pyReprFields fs

end

/-- Python `for i in v`: lists yield elements, dicts yield their keys, strings
yield their characters (as one-character strings); every other value raises
`TypeError`. -/
def pyIter : JVal → Except PyError (List JVal)
  | .arr xs => .ok xs
  | .obj fs => .ok (fs.map (fun kv => JVal.str kv.1))
  | .str s => .ok (s.data.map (fun c => JVal.str (String.singleton c)))
  | .null => .error .typeError
  | .bool _ => .error .typeError
  | .num _ => .error .typeError

/-- Python `d.get(k, dflt)` on a parsed dict. -/
def dictGet (fs : List (String × JVal)) (k : String) (dflt : JVal) : JVal :=
  match fs.lookup k with
  | some v => v
  | none => dflt

/-- Python `s.isdigit()`.  Python also accepts non-ASCII Unicode digit
characters; the identifiers in scope are ASCII, so only ASCII digits are
modelled. -/
def pyIsdigit (s : String) : Bool :=
  !s.isEmpty && s.data.all Char.isDigit

/-- Python `c in s` for a single character `c` (substring containment of a
one-character needle), computed on the character list. -/
def pyContains (s : String) (c : Char) : Bool :=
  s.data.contains c

/-- Python `s.strip()`: remove leading and trailing whitespace. -/
def pyStrip (s : String) : String :=
  String.mk (((s.data.dropWhile Char.isWhitespace).reverse.dropWhile
    Char.isWhitespace).reverse)

/-- Python `s.startswith(p)`, computed on the character lists. -/
def pyStartsWith (s p : String) : Bool :=
  p.data.isPrefixOf s.data

/-- Python `s.rstrip(chars)` restricted to the single strip character used by
the code (the slash in `TE_BASE_URL.rstrip("/")`). -/
def pyRStrip (s : String) (c : Char) : String :=
  String.mk ((s.data.reverse.dropWhile (fun d => d = c)).reverse)

/-- What `load_seen_ids` finds at its `state_path`:
the file does not exist, opening/reading it raises `OSError`, its content is
not valid JSON (`json.JSONDecodeError`), or it parses to a JSON value. -/
inductive StateFile where
  | absent
  | unreadable
  | malformed
  | json (data : JVal)

-- Constants from news_notifier.py.
def TE_BASE_URL : String := "https://tradingeconomics.com"
def MAX_SEEN_IDS : Nat := 3000
def DEFAULT_LIMIT : Nat := 20

/-- Body of the per-identifier loop of `load_seen_ids`
(news_notifier.py lines 54-58): a nonempty, colon-free, all-digit string is a
legacy TradingEconomics id and is rewritten to the namespaced form. -/
def migrateId (s : String) : String :=
  if !s.isEmpty && !(pyContains s ':') && pyIsdigit s then "te:" ++ s else s

/-- `load_seen_ids` (news_notifier.py lines 44-62).  A missing file, an
`OSError`, or a JSON decode error yields the empty set; on parsed JSON `data`
the code takes `data.get("ids", data)` when `data` is a dict (else `data`
itself) and iterates it, `str`-ing and migrating each element.  The `for`
statement raises an uncaught `TypeError` when that value is not iterable,
which propagates to the caller (only `JSONDecodeError` and `OSError` are
caught). -/
def load_seen_ids : StateFile → Except PyError (Finset String)
  | .absent => .ok ∅
  | .unreadable => .ok ∅
  | .malformed => .ok ∅
  | .json data =>
    let ids : JVal :=
      match data with
      | .obj fs => dictGet fs "ids" (.obj fs)
      | _ => data
    match pyIter ids with
    | .error e => .error e
    | .ok items => .ok (items.foldl (fun r i => insert (migrateId (pyStr i)) r) ∅)

/-- The truncation step of `save_seen_ids` (news_notifier.py lines 68-70):
`ids_list[-MAX_SEEN_IDS:]` keeps the trailing `MAX_SEEN_IDS` elements of
`ids_list = list(seen_ids)`, the iteration-order listing of the set. -/
def save_truncate (ids_list : List String) : List String :=
  if ids_list.length > MAX_SEEN_IDS then
    ids_list.drop (ids_list.length - MAX_SEEN_IDS)
  else ids_list

/-- `save_seen_ids` (news_notifier.py lines 65-72): the JSON record written to
the state file, given `ids_list = list(seen_ids)`.  Python set iteration order
is arbitrary (string hashes are randomized per process), so the function is
stated over the iteration-order list. -/
def save_seen_ids (ids_list : List String) : JVal :=
  .obj [("ids", .arr ((save_truncate ids_list).map .str))]

/-- The state file holding a plain identifier list, as `save_seen_ids`
persists it. -/
def stateOfIds (xs : List String) : StateFile :=
  .json (.obj [("ids", .arr (xs.map .str))])

/-- The set a successful load yields (all loads in the claims below succeed;
an error is mapped to `∅` only to give the statements a total accessor). -/
def loadSet (f : StateFile) : Finset String :=
  match load_seen_ids f with
  | .ok r => r
  | .error _ => ∅

/-! ### MD5 (hashlib.md5(...).hexdigest() used by rss_feeds._article_id)

A direct implementation of RFC 1321 over byte lists, with 32-bit words as
naturals reduced mod 2^32. -/

/-- UTF-8 encoding of one character (Python `str.encode("utf-8")`). -/
def utf8EncodeChar (c : Char) : List Nat :=
  let n := c.toNat
  if n < 128 then [n]
  else if n < 2048 then [192 ||| (n >>> 6), 128 ||| (n &&& 63)]
  else if n < 65536 then
    [224 ||| (n >>> 12), 128 ||| ((n >>> 6) &&& 63), 128 ||| (n &&& 63)]
  else
    [240 ||| (n >>> 18), 128 ||| ((n >>> 12) &&& 63),
     128 ||| ((n >>> 6) &&& 63), 128 ||| (n &&& 63)]

def utf8Encode (s : String) : List Nat :=
  (s.data.map utf8EncodeChar).flatten

/-- The low `count` bytes of `x`, little-endian. -/
def leBytes : Nat → Nat → List Nat
  | 0, _ => []
  | k + 1, x => (x % 256) :: leBytes k (x / 256)

/-- MD5 padding: append 0x80, then zeros to 56 mod 64, then the 64-bit
little-endian bit length. -/
def md5Pad (msg : List Nat) : List Nat :=
  msg ++ [128] ++ List.replicate ((119 - msg.length % 64) % 64) 0
    ++ leBytes 8 (8 * msg.length)

/-- Split a byte list into 64-byte chunks. -/
def md5Chunks : List Nat → List (List Nat)
  | [] => []
  | a :: t => (a :: t).take 64 :: md5Chunks ((a :: t).drop 64)
termination_by l => l.length
decreasing_by
  simp [List.length_drop]
  omega

/-- Little-endian 32-bit word `j` of a chunk. -/
def leWord (bytes : List Nat) (j : Nat) : Nat :=
  bytes.getD (4 * j) 0 + 256 * bytes.getD (4 * j + 1) 0
    + 65536 * bytes.getD (4 * j + 2) 0 + 16777216 * bytes.getD (4 * j + 3) 0

/-- Left-rotation of a 32-bit word. -/
def rotl32 (x s : Nat) : Nat :=
  ((x <<< s) ||| (x >>> (32 - s))) % 4294967296

/-- The 64 MD5 round constants (RFC 1321: floor(2^32 * abs(sin(i+1)))). -/
def md5K : List Nat :=
  [0xd76aa478, 0xe8c7b756, 0x242070db, 0xc1bdceee,
   0xf57c0faf, 0x4787c62a, 0xa8304613, 0xfd469501,
   0x698098d8, 0x8b44f7af, 0xffff5bb1, 0x895cd7be,
   0x6b901122, 0xfd987193, 0xa679438e, 0x49b40821,
   0xf61e2562, 0xc040b340, 0x265e5a51, 0xe9b6c7aa,
   0xd62f105d, 0x02441453, 0xd8a1e681, 0xe7d3fbc8,
   0x21e1cde6, 0xc33707d6, 0xf4d50d87, 0x455a14ed,
   0xa9e3e905, 0xfcefa3f8, 0x676f02d9, 0x8d2a4c8a,
   0xfffa3942, 0x8771f681, 0x6d9d6122, 0xfde5380c,
   0xa4beea44, 0x4bdecfa9, 0xf6bb4b60, 0xbebfbc70,
   0x289b7ec6, 0xeaa127fa, 0xd4ef3085, 0x04881d05,
   0xd9d4d039, 0xe6db99e5, 0x1fa27cf8, 0xc4ac5665,
   0xf4292244, 0x432aff97, 0xab9423a7, 0xfc93a039,
   0x655b59c3, 0x8f0ccc92, 0xffeff47d, 0x85845dd1,
   0x6fa87e4f, 0xfe2ce6e0, 0xa3014314, 0x4e0811a1,
   0xf7537e82, 0xbd3af235, 0x2ad7d2bb, 0xeb86d391]

/-- The MD5 per-round shift amounts. -/
def md5S : List Nat :=
  [7, 12, 17, 22, 7, 12, 17, 22, 7, 12, 17, 22, 7, 12, 17, 22,
   5, 9, 14, 20, 5, 9, 14, 20, 5, 9, 14, 20, 5, 9, 14, 20,
   4, 11, 16, 23, 4, 11, 16, 23, 4, 11, 16, 23, 4, 11, 16, 23,
   6, 10, 15, 21, 6, 10, 15, 21, 6, 10, 15, 21, 6, 10, 15, 21]

/-- Process one 64-byte chunk. -/
def md5Step (st : Nat × Nat × Nat × Nat) (chunk : List Nat) :
    Nat × Nat × Nat × Nat :=
  let fin := (List.range 64).foldl (fun w i =>
    let a := w.1
    let b := w.2.1
    let c := w.2.2.1
    let d := w.2.2.2
    let fg : Nat × Nat :=
      if i < 16 then ((b &&& c) ||| ((4294967295 ^^^ b) &&& d), i)
      else if i < 32 then ((d &&& b) ||| ((4294967295 ^^^ d) &&& c), (5 * i + 1) % 16)
      else if i < 48 then (b ^^^ c ^^^ d, (3 * i + 5) % 16)
      else (c ^^^ (b ||| (4294967295 ^^^ d)), (7 * i) % 16)
    let f := (fg.1 + a + md5K.getD i 0 + leWord chunk fg.2) % 4294967296
    (d, (b + rotl32 f (md5S.getD i 0)) % 4294967296, b, c)) st
  ((st.1 + fin.1) % 4294967296, (st.2.1 + fin.2.1) % 4294967296,
   (st.2.2.1 + fin.2.2.1) % 4294967296, (st.2.2.2 + fin.2.2.2) % 4294967296)

def hexDigitChar (n : Nat) : Char :=
  "0123456789abcdef".data.getD n 'x'

def byteToHex (b : Nat) : String :=
  String.mk [hexDigitChar (b / 16), hexDigitChar (b % 16)]

/-- `hashlib.md5(link.encode("utf-8")).hexdigest()`. -/
def md5hex (s : String) : String :=
  let st := (md5Chunks (md5Pad (utf8Encode s))).foldl md5Step
    (0x67452301, 0xefcdab89, 0x98badcfe, 0x10325476)
  String.join ((leBytes 4 st.1 ++ leBytes 4 st.2.1
    ++ leBytes 4 st.2.2.1 ++ leBytes 4 st.2.2.2).map byteToHex)

/-! ### Identifier assignment (rss_feeds.py and the TE branch of run) -/

/-- `_article_id` (rss_feeds.py lines 29-32):
`f"rss:{source}:{hashlib.md5(link.encode()).hexdigest()}"`. -/
def _article_id (source : String) (link : String) : String :=
  "rss:" ++ source ++ ":" ++ md5hex link

/-- `_normalize_source` (rss_feeds.py lines 35-37). -/
def _normalize_source (name : String) : String :=
  (name.toLower).replace " " "-"

/-- The TradingEconomics identifier built in `run`
(news_notifier.py line 163): `f"te:{aid}"` where `aid = item.get("id")` is the
raw JSON value. -/
def te_article_id (aid : JVal) : String :=
  "te:" ++ pyStr aid

/-! ### The dispatch loop and run (news_notifier.py lines 139-198) -/

/-- A normalized article record, the dict shape built by `run` and by
`fetch_rss_articles`. -/
structure Article where
  id : String
  title : String
  link : String
  description : Option String
  source : Option String
deriving DecidableEq, Repr

/-- Python `x or default` for an optional string (`None` and `""` are falsy). -/
def pyOrStr (x : Option String) (dflt : String) : String :=
  match x with
  | none => dflt
  | some s => if s = "" then dflt else s

/-- `article_full_url` (news_notifier.py lines 94-99). -/
def article_full_url (relative_url : String) : String :=
  let path := pyStrip relative_url
  let path := if pyStartsWith path "/" then path else "/" ++ path
  (pyRStrip TE_BASE_URL '/') ++ path

/-- One item of the TradingEconomics API response, modelled as a record of the
JSON fields `run` reads (`item.get("id")`, `item.get("url")`,
`item.get("title")`, `item.get("description")`). -/
structure TEItem where
  id : Option JVal
  url : Option String
  title : Option String
  description : Option String

/-- The TE branch of `run` (news_notifier.py lines 160-176): items without an
`id` are skipped; the rest become articles with the `te:` namespaced id, a
full URL, and a defaulted title. -/
def buildTEArticles (te_items : List TEItem) : List Article :=
  te_items.filterMap (fun item =>
    match item.id with
    | none => none
    | some aid => some
      { id := te_article_id aid
        title := pyOrStr item.title "No title"
        link := article_full_url (pyOrStr item.url "")
        description := item.description
        source := some "TradingEconomics" })

/-- The dedupe-and-notify loop of `run` (news_notifier.py lines 184-196).
Given the send outcome for each article (`send_discord_notification` returns
`True`/`False`; the code discards it), the loop skips a candidate whose id is
empty or already seen, and otherwise posts one notification and then adds the
id to the seen set.  Returns the final seen set and the ids notified, in
order.  The fixed `time.sleep(1)` delay has no observable effect in this
model. -/
def notify_cycle (send : Article → Bool) :
    List Article → Finset String → Finset String × List String
  | [], seen => (seen, [])
  | item :: rest, seen =>
    if item.id = "" ∨ item.id ∈ seen then notify_cycle send rest seen
    else
      let _ok := send item
      let r := notify_cycle send rest (insert item.id seen)
      (r.1, item.id :: r.2)

/-- The externally observable effects of one `run` cycle. -/
structure CycleResult where
  stateLoaded : Bool
  fetchedTE : Bool
  fetchedRSS : Bool
  sends : List String
  savedSet : Option (Finset String)
deriving DecidableEq

/-- `run` (news_notifier.py lines 139-198).  `webhookArg` is the resolved
webhook URL before `.strip()`; `stateFile` what `load_seen_ids` finds at the
state path; `te_items` and `rss_items` the upstream fetch results (external
HTTP collaborators); `send` the per-article notification outcome.  An empty
webhook aborts the cycle before any other work.  A load error (see
`load_seen_ids`) propagates.  Otherwise the cycle filters and notifies, and
finally passes the updated seen set to `save_seen_ids`. -/
def run (webhookArg : String) (stateFile : StateFile) (te_items : List TEItem)
    (rss_items : List Article) (rss_enabled : Bool) (send : Article → Bool) :
    Except PyError CycleResult :=
  let webhook := pyStrip webhookArg
  if webhook = "" then
    .ok { stateLoaded := false, fetchedTE := false, fetchedRSS := false,
          sends := [], savedSet := none }
  else
    match load_seen_ids stateFile with
    | .error e => .error e
    | .ok seen =>
      let articles := buildTEArticles te_items
        ++ (if rss_enabled then rss_items else [])
      let r := notify_cycle send articles seen
      .ok { stateLoaded := true, fetchedTE := true, fetchedRSS := rss_enabled,
            sends := r.2, savedSet := some r.1 }

/-! ### Helper lemmas -/

theorem foldl_insert_toFinset {α β : Type} [DecidableEq β] (f : α → β) :
    ∀ (l : List α) (acc : Finset β),
      l.foldl (fun r i => insert (f i) r) acc = acc ∪ (l.map f).toFinset := by
  intro l
  induction l with
  | nil => intro acc; simp
  | cons x xs ih =>
    intro acc
    simp [List.foldl_cons, ih, List.toFinset_cons, Finset.insert_union,
      Finset.union_insert]

theorem load_seen_ids_ofList (xs : List String) :
    load_seen_ids (stateOfIds xs) = .ok ((xs.map migrateId).toFinset) := by
  have h : load_seen_ids (stateOfIds xs)
      = .ok ((xs.map JVal.str).foldl (fun r i => insert (migrateId (pyStr i)) r) ∅) := rfl
  rw [h, foldl_insert_toFinset (fun i => migrateId (pyStr i)) (xs.map JVal.str) ∅]
  simp [List.map_map, Function.comp_def, pyStr]

theorem loadSet_ofList (xs : List String) :
    loadSet (stateOfIds xs) = (xs.map migrateId).toFinset := by
  simp [loadSet, load_seen_ids_ofList]

theorem migrateId_of_not_bare (x : String)
    (h : pyContains x ':' = true ∨ pyIsdigit x = false) :
    migrateId x = x := by
  rcases h with h | h <;> simp [migrateId, h]

theorem migrateId_of_bare (x : String)
    (h : (!x.isEmpty && !(pyContains x ':') && pyIsdigit x) = true) :
    migrateId x = "te:" ++ x := by
  simp [migrateId, h]

theorem notify_cycle_seen_sub (send : Article → Bool) :
    ∀ (l : List Article) (s : Finset String), s ⊆ (notify_cycle send l s).1 := by
  intro l
  induction l with
  | nil => intro s; simp [notify_cycle]
  | cons a rest ih =>
    intro s
    by_cases h : a.id = "" ∨ a.id ∈ s
    · simpa [notify_cycle, h] using ih s
    · simp only [notify_cycle, if_neg h]
      exact fun x hx => ih (insert a.id s) (Finset.mem_insert_of_mem hx)

theorem notify_cycle_mem_seen (send : Article → Bool) :
    ∀ (l : List Article) (s : Finset String) (a : Article),
      a ∈ l → a.id ≠ "" → a.id ∈ (notify_cycle send l s).1 := by
  intro l
  induction l with
  | nil => intro s a ha; exact absurd ha (List.not_mem_nil a)
  | cons b rest ih =>
    intro s a ha hid
    rcases List.mem_cons.1 ha with rfl | ha
    · by_cases h : a.id = "" ∨ a.id ∈ s
      · rcases h with h | h
        · exact absurd h hid
        · simpa [notify_cycle, h] using notify_cycle_seen_sub send rest s h
      · simp only [notify_cycle, if_neg h]
        exact notify_cycle_seen_sub send rest (insert a.id s)
          (Finset.mem_insert_self a.id s)
    · by_cases h : b.id = "" ∨ b.id ∈ s
      · simpa [notify_cycle, h] using ih s a ha hid
      · simp only [notify_cycle, if_neg h]
        exact ih (insert b.id s) a ha hid

theorem notify_cycle_log_mem_seen (send : Article → Bool) :
    ∀ (l : List Article) (s : Finset String) (i : String),
      i ∈ (notify_cycle send l s).2 → i ∈ (notify_cycle send l s).1 := by
  intro l
  induction l with
  | nil => intro s i hi; simp [notify_cycle] at hi
  | cons a rest ih =>
    intro s i hi
    by_cases h : a.id = "" ∨ a.id ∈ s
    · simp only [notify_cycle, if_neg, h, if_true] at hi ⊢
      simpa [h] using ih s i (by simpa [h] using hi)
    · simp only [notify_cycle, if_neg h] at hi ⊢
      rcases List.mem_cons.1 hi with rfl | hi
      · exact notify_cycle_seen_sub send rest (insert a.id s)
          (Finset.mem_insert_self a.id s)
      · exact ih (insert a.id s) i hi

theorem notify_cycle_log_fresh (send : Article → Bool) :
    ∀ (l : List Article) (s : Finset String) (i : String),
      i ∈ (notify_cycle send l s).2 → i ∉ s ∧ i ≠ "" := by
  intro l
  induction l with
  | nil => intro s i hi; simp [notify_cycle] at hi
  | cons a rest ih =>
    intro s i hi
    by_cases h : a.id = "" ∨ a.id ∈ s
    · exact ih s i (by simpa [notify_cycle, h] using hi)
    · simp only [notify_cycle, if_neg h] at hi
      push_neg at h
      rcases List.mem_cons.1 hi with rfl | hi
      · exact ⟨h.2, h.1⟩
      · have := ih (insert a.id s) i hi
        exact ⟨fun hs => this.1 (Finset.mem_insert_of_mem hs), this.2⟩

theorem notify_cycle_indep (f g : Article → Bool) :
    ∀ (l : List Article) (s : Finset String),
      notify_cycle f l s = notify_cycle g l s := by
  intro l
  induction l with
  | nil => intro s; rfl
  | cons a rest ih =>
    intro s
    by_cases h : a.id = "" ∨ a.id ∈ s <;>
      simp [notify_cycle, h, ih]

theorem notify_cycle_skip_all (send : Article → Bool) :
    ∀ (l : List Article) (s : Finset String),
      (∀ a ∈ l, a.id = "" ∨ a.id ∈ s) → notify_cycle send l s = (s, []) := by
  intro l
  induction l with
  | nil => intro s _; rfl
  | cons a rest ih =>
    intro s h
    have ha := h a (List.mem_cons_self a rest)
    simp only [notify_cycle, if_pos ha]
    exact ih s (fun b hb => h b (List.mem_cons_of_mem a hb))

theorem notify_cycle_log_nodup (send : Article → Bool) :
    ∀ (l : List Article) (s : Finset String), (notify_cycle send l s).2.Nodup := by
  intro l
  induction l with
  | nil => intro s; simp [notify_cycle]
  | cons a rest ih =>
    intro s
    by_cases h : a.id = "" ∨ a.id ∈ s
    · simpa [notify_cycle, h] using ih s
    · simp only [notify_cycle, if_neg h, List.nodup_cons]
      refine ⟨fun hmem => ?_, ih (insert a.id s)⟩
      exact (notify_cycle_log_fresh send rest (insert a.id s) a.id hmem).1
        (Finset.mem_insert_self a.id s)

/-! ### Concrete identifiers for the eviction counterexample (claim C2) -/

/-- An injective family of identifier strings (identifier `n` is `n + 1`
copies of the letter a). -/
def c2Id (n : Nat) : String := String.mk (List.replicate (n + 1) 'a')

/-- 3000 pairwise distinct identifiers. -/
def c2Base : List String := (List.range 3000).map c2Id

/-- A 3001st identifier, distinct from all of `c2Base`. -/
def c2New : String := c2Id 3000

/-- An insertion history of 3001 distinct identifiers with `c2New` inserted
first (oldest) and the elements of `c2Base` inserted afterwards. -/
def c2Ins : List String := c2New :: c2Base

theorem c2Id_inj : Function.Injective c2Id := by
  intro a b h
  have hlen := congrArg (fun s => s.data.length) h
  simpa [c2Id] using hlen

theorem c2New_not_mem_base : c2New ∉ c2Base := by
  intro h
  rcases List.mem_map.1 h with ⟨k, hk, hkeq⟩
  have : k = 3000 := c2Id_inj hkeq
  subst this
  exact absurd (List.mem_range.1 hk) (by omega)

theorem c2Ins_nodup : c2Ins.Nodup := by
  refine List.nodup_cons.2 ⟨c2New_not_mem_base, ?_⟩
  exact (List.nodup_range 3000).map c2Id_inj

theorem c2Base_length : c2Base.length = 3000 := by
  simp [c2Base]

/-- Formalization of claim C2.  A Python `set` is presented by its insertion
history `ins` (a duplicate-free list, oldest first); `list(seen_ids)` inside
`save_seen_ids` enumerates the set in an arbitrary, hash-dependent order, so
it may be any permutation `it` of `ins`.  The claim asserts that the persisted
identifiers are exactly the most recently added `MAX_SEEN_IDS` ones. -/
def claimC2 : Prop :=
  ∀ ins it : List String, ins.Nodup → it.Perm ins → MAX_SEEN_IDS < ins.length →
    (save_truncate it).toFinset = (ins.drop (ins.length - MAX_SEEN_IDS)).toFinset

theorem save_truncate_of_gt (it : List String) (h : MAX_SEEN_IDS < it.length) :
    save_truncate it = it.drop (it.length - MAX_SEEN_IDS) := by
  simp [save_truncate, h]

/-! ### Claims -/

/-- Claim C1 (code bug).  The claim says `load_seen_ids` returns the empty set
and never raises for absent, unreadable, or malformed content, including
content that is valid JSON but not a list or dict of identifiers.  The code
only catches `json.JSONDecodeError` and `OSError`; at the failing input — a
state file whose content is the valid JSON scalar `5` — the statement
`for i in ids` raises an uncaught `TypeError`, so the caller does observe an
exception instead of the claimed empty set. -/
theorem C1_load_raises_on_scalar_json :
    load_seen_ids (StateFile.json (JVal.num 5)) = .error PyError.typeError ∧
    load_seen_ids (StateFile.json (JVal.num 5)) ≠ .ok ∅ :=
  ⟨rfl, fun h => Except.noConfusion h⟩

/-- Claim C2, counterexample: the persisted list after `save_seen_ids` is the
trailing `MAX_SEEN_IDS` elements of the arbitrary set-iteration order, not of
the insertion order.  With insertion history `c2Ins` (oldest element `c2New`
first) and iteration order `c2Base ++ [c2New]` — a permutation of the same
set — the persisted identifiers retain the oldest-inserted `c2New`, which the
claim requires to be evicted. -/
theorem C2_eviction_counterexample : ¬ claimC2 := by
  intro h
  have hperm : (c2Base ++ [c2New]).Perm c2Ins := List.perm_append_singleton c2New c2Base
  have hlen : MAX_SEEN_IDS < c2Ins.length := by
    simp [c2Ins, c2Base_length, MAX_SEEN_IDS]
  have heq := h c2Ins (c2Base ++ [c2New]) c2Ins_nodup hperm hlen
  have hlen2 : (c2Base ++ [c2New]).length = MAX_SEEN_IDS + 1 := by
    simp [c2Base_length, MAX_SEEN_IDS]
  have hone : MAX_SEEN_IDS + 1 - MAX_SEEN_IDS = 1 := by omega
  have hsave : save_truncate (c2Base ++ [c2New]) = c2Base.drop 1 ++ [c2New] := by
    rw [save_truncate_of_gt _ (by omega), hlen2, hone]
    exact List.drop_append_of_le_length (by rw [c2Base_length]; omega)
  have hdrop : c2Ins.drop (c2Ins.length - MAX_SEEN_IDS) = c2Base := by
    have hl : c2Ins.length = MAX_SEEN_IDS + 1 := by
      simp [c2Ins, c2Base_length, MAX_SEEN_IDS]
    rw [hl, hone]
    rfl
  have hmem : c2New ∈ (save_truncate (c2Base ++ [c2New])).toFinset := by
    rw [hsave]
    exact List.mem_toFinset.2 (List.mem_append_right _ (List.mem_singleton.2 rfl))
  rw [heq, hdrop] at hmem
  exact c2New_not_mem_base (List.mem_toFinset.1 hmem)

/-- Claim C2, amended: when the set exceeds `MAX_SEEN_IDS`, `save_seen_ids`
persists exactly the trailing `MAX_SEEN_IDS` elements of the iteration-order
listing of the set — so exactly `MAX_SEEN_IDS` of the set's identifiers are
retained, and they are the most recently added ones only when the set's
iteration order happens to coincide with insertion order (Python sets do not
guarantee this). -/
theorem C2_save_keeps_iteration_suffix (it : List String)
    (h : MAX_SEEN_IDS < it.length) :
    save_truncate it = it.drop (it.length - MAX_SEEN_IDS) ∧
    (save_truncate it).length = MAX_SEEN_IDS ∧
    ∀ x ∈ save_truncate it, x ∈ it := by
  have hif : save_truncate it = it.drop (it.length - MAX_SEEN_IDS) := by
    simp [save_truncate, h]
  refine ⟨hif, ?_, ?_⟩
  · rw [hif, List.length_drop]
    omega
  · rw [hif]
    exact fun x hx => List.drop_subset _ _ hx

/-- Witness for `C2_save_keeps_iteration_suffix` at the concrete 3001-element
iteration order `c2Base ++ [c2New]`. -/
theorem C2_save_keeps_iteration_suffix_witness :
    MAX_SEEN_IDS < (c2Base ++ [c2New]).length ∧
    (save_truncate (c2Base ++ [c2New])).length = MAX_SEEN_IDS := by
  have h : MAX_SEEN_IDS < (c2Base ++ [c2New]).length := by
    simp [c2Base_length, MAX_SEEN_IDS]
  exact ⟨h, (C2_save_keeps_iteration_suffix (c2Base ++ [c2New]) h).2.1⟩

/-- Claim C3: for every seen set (every iteration-order listing of it), the
record persisted by `save_seen_ids` holds at most `MAX_SEEN_IDS`
identifiers. -/
theorem C3_bounded_persistence (ids_list : List String) :
    ∃ l : List String, save_seen_ids ids_list
        = JVal.obj [("ids", JVal.arr (l.map JVal.str))] ∧ l.length ≤ MAX_SEEN_IDS := by
  refine ⟨save_truncate ids_list, rfl, ?_⟩
  by_cases h : ids_list.length > MAX_SEEN_IDS
  · simp only [save_truncate, if_pos h, List.length_drop]
    omega
  · simp only [save_truncate, if_neg h]
    omega

theorem te_data_isPrefixOf (s : String) :
    "te:".data.isPrefixOf ("te:" ++ s).data = true := by
  rw [String.data_append, List.isPrefixOf_iff_prefix]
  exact List.prefix_append _ _

/-- Claim C4: loading a persisted identifier list whose entries are all bare
numeric strings (nonempty, colon-free, all digits) yields a set whose every
member `y` carries the `te:` namespace prefix; and any stored identifier `x`
that is non-numeric or already contains a colon is loaded unchanged (it is a
member of the loaded set). -/
theorem C4_legacy_migration (xs ys : List String) (x y : String)
    (hxs : ∀ s ∈ xs, (!s.isEmpty && !(pyContains s ':') && pyIsdigit s) = true)
    (hy : y ∈ loadSet (stateOfIds xs))
    (hx : x ∈ ys)
    (hxn : pyContains x ':' = true ∨ pyIsdigit x = false) :
    "te:".data.isPrefixOf y.data = true ∧ x ∈ loadSet (stateOfIds ys) := by
  constructor
  · rw [loadSet_ofList] at hy
    rcases List.mem_map.1 (List.mem_toFinset.1 hy) with ⟨s, hs, rfl⟩
    rw [migrateId_of_bare s (hxs s hs)]
    exact te_data_isPrefixOf s
  · rw [loadSet_ofList]
    exact List.mem_toFinset.2
      (List.mem_map.2 ⟨x, hx, migrateId_of_not_bare x hxn⟩)

/-- Witness for `C4_legacy_migration`: loading `["42"]` yields the prefixed
member `te:42`; loading `["7", "a:b"]` keeps `a:b` unchanged. -/
theorem C4_legacy_migration_witness :
    "te:".data.isPrefixOf "te:42".data = true ∧
    "a:b" ∈ loadSet (stateOfIds ["7", "a:b"]) :=
  C4_legacy_migration ["42"] ["7", "a:b"] "a:b" "te:42"
    (by decide) (by decide) (by decide) (by decide)

/-- Claim C10: saving a seen set of at most `MAX_SEEN_IDS` identifiers, each
containing a colon or being non-numeric and nonempty, and loading the written
record immediately afterwards returns exactly the saved set. -/
theorem C10_save_load_round_trip (it : List String)
    (hlen : it.length ≤ MAX_SEEN_IDS)
    (hids : ∀ x ∈ it, pyContains x ':' = true ∨ (pyIsdigit x = false ∧ x ≠ "")) :
    load_seen_ids (StateFile.json (save_seen_ids it)) = .ok it.toFinset := by
  have htr : save_truncate it = it := by
    have h : ¬ it.length > MAX_SEEN_IDS := by omega
    simp [save_truncate, h]
  have hstate : StateFile.json (save_seen_ids it) = stateOfIds it := by
    simp [save_seen_ids, stateOfIds, htr]
  rw [hstate, load_seen_ids_ofList]
  have hmap : it.map migrateId = it.map id := List.map_congr_left (fun x hx => by
    rcases hids x hx with h | h
    · exact migrateId_of_not_bare x (Or.inl h)
    · exact migrateId_of_not_bare x (Or.inr h.1))
  rw [hmap, List.map_id]

/-- Witness for `C10_save_load_round_trip` at the concrete set
`{te:42, abc}`. -/
theorem C10_save_load_round_trip_witness :
    load_seen_ids (StateFile.json (save_seen_ids ["te:42", "abc"]))
      = .ok (["te:42", "abc"].toFinset) :=
  C10_save_load_round_trip ["te:42", "abc"] (by decide) (by decide)

/-- Claim C7: identifiers from different source namespaces never collide: a
TradingEconomics identifier (`te:` followed by the native id) is never equal
to a feed identifier (`rss:` followed by slug and link hash), for any inputs
whatsoever. -/
theorem C7_namespace_isolation (aid : JVal) (src link : String) :
    te_article_id aid ≠ _article_id src link := by
  intro hcontra
  have h : (some 't' : Option Char) = some 'r' :=
    congrArg (fun s => s.data.head?) hcontra
  exact absurd h (by decide)

/-- Claim C8: feed identifier assignment is deterministic — two calls of
`_article_id` on equal source labels and equal links yield the same
identifier string. -/
theorem C8_deterministic_feed_id (source1 link1 source2 link2 : String)
    (hs : source2 = source1) (hl : link2 = link1) :
    _article_id source1 link1 = _article_id source2 link2 := by
  rw [hs, hl]

/-- Witness for `C8_deterministic_feed_id` at the spec scenario-3 input. -/
theorem C8_deterministic_feed_id_witness :
    _article_id "wsj-markets" "https://example.com/a"
      = _article_id "wsj-markets" "https://example.com/a" :=
  C8_deterministic_feed_id "wsj-markets" "https://example.com/a"
    "wsj-markets" "https://example.com/a" rfl rfl

/-- Claim C9: when the webhook URL is empty after trimming, `run` performs no
partial work: it reports the missing configuration and returns without
loading state, without fetching any source, without sending, and without
writing the state file. -/
theorem C9_missing_webhook_skips_cycle (webhookArg : String)
    (stateFile : StateFile) (te_items : List TEItem) (rss_items : List Article)
    (rss_enabled : Bool) (send : Article → Bool)
    (h : pyStrip webhookArg = "") :
    run webhookArg stateFile te_items rss_items rss_enabled send =
      .ok { stateLoaded := false, fetchedTE := false, fetchedRSS := false,
            sends := [], savedSet := none } := by
  simp [run, h]

/-- Witness for `C9_missing_webhook_skips_cycle` with a whitespace-only
webhook URL. -/
theorem C9_missing_webhook_skips_cycle_witness :
    run " " StateFile.absent [] [] true (fun _ => true) =
      .ok { stateLoaded := false, fetchedTE := false, fetchedRSS := false,
            sends := [], savedSet := none } :=
  C9_missing_webhook_skips_cycle " " StateFile.absent [] [] true
    (fun _ => true) (by decide)

/-- Claim C5: in the dispatch loop, the send outcome is discarded — the loop
(final seen set and notification log alike) is identical for any two outcome
functions `f` and `g`, so a send failure for one article never prevents
subsequent candidates from being sent; every candidate with a nonempty
identifier ends up in the seen set after the cycle; and every dispatched
identifier `i` is in the final seen set. -/
theorem C5_fail_forward (f g : Article → Bool) (articles : List Article)
    (seen : Finset String) (a : Article) (i : String)
    (ha : a ∈ articles) (hid : a.id ≠ "")
    (hi : i ∈ (notify_cycle f articles seen).2) :
    notify_cycle f articles seen = notify_cycle g articles seen ∧
    a.id ∈ (notify_cycle f articles seen).1 ∧
    i ∈ (notify_cycle f articles seen).1 :=
  ⟨notify_cycle_indep f g articles seen,
   notify_cycle_mem_seen f articles seen a ha hid,
   notify_cycle_log_mem_seen f articles seen i hi⟩

/-- The three-article scenario of spec section 8, scenario 4: the send for
`te:2` reports failure, the other two report success. -/
def c5Articles : List Article :=
  [{ id := "te:1", title := "t1", link := "l1", description := none, source := none },
   { id := "te:2", title := "t2", link := "l2", description := none, source := none },
   { id := "te:3", title := "t3", link := "l3", description := none, source := none }]

/-- Witness for `C5_fail_forward`: with a send function failing on `te:2`, the
cycle equals the all-success cycle, and both `te:1` (the candidate) and
`te:2` (a dispatched id) are in the final seen set. -/
theorem C5_fail_forward_witness :
    notify_cycle (fun x => !(x.id == "te:2")) c5Articles ∅
        = notify_cycle (fun _ => true) c5Articles ∅ ∧
    "te:1" ∈ (notify_cycle (fun x => !(x.id == "te:2")) c5Articles ∅).1 ∧
    "te:2" ∈ (notify_cycle (fun x => !(x.id == "te:2")) c5Articles ∅).1 := by
  have h := C5_fail_forward (fun x => !(x.id == "te:2")) (fun _ => true)
    c5Articles ∅
    { id := "te:1", title := "t1", link := "l1", description := none, source := none }
    "te:2" (by decide) (by decide) (by decide)
  exact h

/-- Claim C6: a candidate whose identifier is empty or already in the loaded
seen set is never dispatched (its id is absent from the notification log); a
cycle whose candidates are all skipped leaves the seen set unchanged and
sends nothing, so the persisted state is unchanged; and an article notified
or seen in one cycle is notified at most once there and — provided its id
contains a colon (so legacy migration leaves it alone) and the set fits the
`MAX_SEEN_IDS` cap — never again in a second cycle that starts from the
persisted-and-reloaded state. -/
theorem C6_idempotent_dispatch (send1 send2 : Article → Bool)
    (arts1 arts2 arts3 : List Article) (seen0 : Finset String)
    (a b : Article) (it : List String)
    (hb : b ∈ arts1) (hbskip : b.id = "" ∨ b.id ∈ seen0)
    (ha : a.id ∈ (notify_cycle send1 arts1 seen0).1)
    (hcolon : pyContains a.id ':' = true)
    (hit : it.toFinset = (notify_cycle send1 arts1 seen0).1)
    (hlen : it.length ≤ MAX_SEEN_IDS)
    (h3 : ∀ x ∈ arts3, x.id = "" ∨ x.id ∈ seen0) :
    b.id ∉ (notify_cycle send1 arts1 seen0).2 ∧
    List.count a.id (notify_cycle send1 arts1 seen0).2 ≤ 1 ∧
    a.id ∉ (notify_cycle send2 arts2
      (loadSet (StateFile.json (save_seen_ids it)))).2 ∧
    notify_cycle send1 arts3 seen0 = (seen0, []) := by
  refine ⟨?_, ?_, ?_, notify_cycle_skip_all send1 arts3 seen0 h3⟩
  · intro hm
    have hfresh := notify_cycle_log_fresh send1 arts1 seen0 b.id hm
    rcases hbskip with hb0 | hb0
    · exact hfresh.2 hb0
    · exact hfresh.1 hb0
  · exact List.nodup_iff_count_le_one.1 (notify_cycle_log_nodup send1 arts1 seen0) a.id
  · have htr : save_truncate it = it := by
      have h : ¬ it.length > MAX_SEEN_IDS := by omega
      simp [save_truncate, h]
    have hstate : StateFile.json (save_seen_ids it) = stateOfIds it := by
      simp [save_seen_ids, stateOfIds, htr]
    have hmem : a.id ∈ loadSet (StateFile.json (save_seen_ids it)) := by
      rw [hstate, loadSet_ofList]
      refine List.mem_toFinset.2 (List.mem_map.2
        ⟨a.id, ?_, migrateId_of_not_bare a.id (Or.inl hcolon)⟩)
      rw [← hit] at ha
      exact List.mem_toFinset.1 ha
    intro hm2
    exact (notify_cycle_log_fresh send2 arts2 _ a.id hm2).1 hmem

def c6ArtA : Article :=
  { id := "te:1", title := "t", link := "l", description := none, source := none }

def c6ArtB : Article :=
  { id := "te:9", title := "t", link := "l", description := none, source := none }

/-- Witness for `C6_idempotent_dispatch`: starting from seen set `{te:9}`,
the already-seen `te:9` is never dispatched, the fresh `te:1` is dispatched
at most once, and after persisting `["te:1", "te:9"]` and reloading, a second
cycle over the same article sends nothing for `te:1`. -/
theorem C6_idempotent_dispatch_witness :
    c6ArtB.id ∉ (notify_cycle (fun _ => true) [c6ArtB, c6ArtA] {"te:9"}).2 ∧
    List.count c6ArtA.id
      (notify_cycle (fun _ => true) [c6ArtB, c6ArtA] {"te:9"}).2 ≤ 1 ∧
    c6ArtA.id ∉ (notify_cycle (fun _ => true) [c6ArtA]
      (loadSet (StateFile.json (save_seen_ids ["te:1", "te:9"])))).2 ∧
    notify_cycle (fun _ => true) [c6ArtB] {"te:9"} = ({"te:9"}, []) :=
  C6_idempotent_dispatch (fun _ => true) (fun _ => true)
    [c6ArtB, c6ArtA] [c6ArtA] [c6ArtB] {"te:9"} c6ArtA c6ArtB ["te:1", "te:9"]
    (by decide) (by decide) (by decide) (by decide) (by decide) (by decide)
    (by decide)
